import Mathlib

set_option maxRecDepth 4000

/-!
Shallow embedding of the OKX perpetual order-book data source
(hummingbot/connector/derivative/okx_perpetual/okx_perpetual_api_order_book_data_source.py).

Conventions of the embedding:
* Queues: each parser returns the list of messages it enqueues (the queue delta), in
  enqueue order, instead of mutating an asyncio queue.
* The nonce provider is explicit state: functions take the last issued identifier and
  return the updated one.
* Python subscript lookups that can raise are modelled with Except.
* Numeric wire fields (JSON numbers or numeric strings) are embedded by their exact
  rational value; float conversion and float arithmetic on timestamps are modelled as
  exact rational arithmetic. Where a claim is about decimal precision itself, the
  IEEE-754 double value of the literal involved is modelled exactly.
* External collaborators (the symbol translator of the connector, the pandas timestamp
  reader) are parameters of the embedded functions.
-/

namespace OkxPerp

/-- Canonical channel kind: the consumer queue a classified message is routed to (the
base-class queue keys for trade, order-book diff and funding-info messages). -/
inductive ChannelKind where
  | trade
  | diff
  | funding
  deriving DecidableEq

/-- Python lookup failures: KeyError for a missing dictionary key, IndexError for an
out-of-range list index. -/
inductive PyErr where
  | keyError
  | indexError
  deriving DecidableEq

/-- Modelled from the spec: the Nonce Sequencer of section 4.1 (the class
NonceCreator.for_microseconds of hummingbot.core.utils.tracking_nonce, which is not
among the sources under src). Given a timestamp in seconds it returns an identifier
strictly greater than any previously returned one, derived from the timestamp at
microsecond resolution, bursts within the same microsecond still yielding distinct
increasing values. The state is the last identifier returned; the candidate is the
integer number of microseconds of the given timestamp, and the result is the candidate
unless that would not increase, in which case the previous identifier is incremented. -/
def nonceNext (last : ℕ) (timestamp : ℚ) : ℕ :=
  max (⌊timestamp * 1000000⌋.toNat) (last + 1)

/-- Python str.split with a one-character separator, acting on the character list of
the string: splitting the empty list gives one empty segment, separators at either end
produce empty segments. -/
def pySplitChar (sep : Char) : List Char → List (List Char)
  | [] => [[]]
  | c :: rest =>
    if c = sep then [] :: pySplitChar sep rest
    else
      match pySplitChar sep rest with
      | [] => [[c]]
      | g :: gs => (c :: g) :: gs

/-- Python ".".join on character lists. -/
def pyJoinDot : List (List Char) → List Char
  | [] => []
  | [g] => g
  | g :: gs => g ++ ('.') :: pyJoinDot gs

/-- The channel part of a topic, as computed by the classifier: the dot-separated
topic with its trailing segment (the instrument identifier) stripped off. -/
def stripLastSegment (topic : String) : String :=
  String.mk (pyJoinDot ((pySplitChar ('.') topic.data).dropLast))

/-- A websocket event message as seen by the classifier: whether the top-level key
"success" is present (its value is never read), and the value of the top-level key
"topic" when that key is present. -/
structure WsEventMessage where
  success : Bool
  topic : Option String
  deriving DecidableEq

/-- Embedding of the method channel_originating_message. The three channel-name
constants live in okx_perpetual_constants, which is not among the sources, so they are
parameters. Result: some k routes to queue k, none is the unrouted outcome (the empty
channel string of the code); reading a missing "topic" key raises KeyError. -/
def channel_originating_message (tradesChannel orderBookChannel instrumentsChannel : String)
    (event_message : WsEventMessage) : Except PyErr (Option ChannelKind) :=
  if event_message.success then Except.ok none
  else
    match event_message.topic with
    | none => Except.error PyErr.keyError
    | some topic =>
      let event_channel := stripLastSegment topic
      if event_channel = tradesChannel then Except.ok (some ChannelKind.trade)
      else if event_channel = orderBookChannel then Except.ok (some ChannelKind.diff)
      else if event_channel = instrumentsChannel then Except.ok (some ChannelKind.funding)
      else Except.ok none

/-- One record of the data array of a websocket depth message: the raw integer of the
ts field (the wire carries milliseconds since epoch as a numeric string, read with
int(...) by the code), and the bid and ask rows (lists of numbers; the code keeps
row[:2] of each row). -/
structure DiffData where
  ts : ℤ
  bids : List (List ℚ)
  asks : List (List ℚ)
  deriving DecidableEq

/-- A websocket depth payload: the value raw_message.get("action", None), the
instrument identifier raw_message["arg"]["instId"] when present, and the data array. -/
structure DiffPayload where
  action : Option String
  arg_instId : Option String
  data : List DiffData
  deriving DecidableEq

/-- Embedding of the static method get_bids_and_asks_from_ws_msg_data: keeps the
first two entries of every bid and ask row. -/
def get_bids_and_asks_from_ws_msg_data (snapshot : DiffData) :
    List (List ℚ) × List (List ℚ) :=
  (snapshot.bids.map (fun row => row.take 2), snapshot.asks.map (fun row => row.take 2))

/-- An order-book message of type DIFF as enqueued by the diff parser: the content
dictionary (trading pair, update id, bids, asks) plus the event timestamp in seconds. -/
structure DiffMessage where
  trading_pair : String
  update_id : ℕ
  bids : List (List ℚ)
  asks : List (List ℚ)
  timestamp : ℚ
  deriving DecidableEq

/-- Embedding of parse_order_book_diff_message. Only payloads whose action equals
"update" are processed: the code reads the instrument identifier, takes the integer ts
of the first data record, scales it by the float literal 1e-6 both for the nonce
provider input and for the event timestamp, extracts bids and asks of the first data
record, and enqueues exactly one DIFF message. Any other action value (including a
missing key, which get turns into None) enqueues nothing and leaves the nonce state
untouched. -/
def parse_order_book_diff_message (toCanonical : String → String) (last : ℕ)
    (raw_message : DiffPayload) : Except PyErr (List DiffMessage × ℕ) :=
  if raw_message.action = some ("update") then
    match raw_message.arg_instId with
    | none => Except.error PyErr.keyError
    | some symbol =>
      match raw_message.data with
      | [] => Except.error PyErr.indexError
      | d :: _ =>
        let trading_pair := toCanonical symbol
        let timestamp_us : ℤ := d.ts
        let update_id := nonceNext last ((timestamp_us : ℚ) * (1 / 1000000))
        let ba := get_bids_and_asks_from_ws_msg_data d
        Except.ok ([{ trading_pair := trading_pair, update_id := update_id,
                      bids := ba.1, asks := ba.2,
                      timestamp := (timestamp_us : ℚ) * (1 / 1000000) }], update_id)
  else Except.ok ([], last)

/-- One entry of the data array of a trade payload, with the fields the trade parser
reads; ts is the raw integer of the ts field (milliseconds since epoch on the wire);
sz and px are passed through to the event content unchanged by the code. -/
structure TradeData where
  instId : String
  tradeId : String
  side : String
  sz : ℚ
  px : ℚ
  ts : ℤ
  deriving DecidableEq

/-- A trade payload: the data array (one entry per trade print). -/
structure TradePayload where
  data : List TradeData
  deriving DecidableEq

/-- Modelled from the spec: the numeric trade-type tag float(TradeType.BUY.value)
(hummingbot.core.data_type.common is not among the sources; the spec fixes only that
each side string maps to the numeric tag of the side-enum convention). -/
def tradeTypeBuyTag : ℚ := 1

/-- Modelled from the spec: the numeric trade-type tag float(TradeType.SELL.value). -/
def tradeTypeSellTag : ℚ := 2

/-- A TRADE message as enqueued by the trade parser: the content dictionary plus the
event timestamp in seconds. -/
structure TradeMessage where
  trade_id : String
  trading_pair : String
  trade_type : ℚ
  amount : ℚ
  price : ℚ
  timestamp : ℚ
  deriving DecidableEq

/-- Embedding of parse_trade_message: one TRADE message per entry of the data array,
in array order; the side string "buy" maps to the buy tag and every other side string
to the sell tag; the millisecond timestamp is scaled by the float literal 1e-3 to
seconds. -/
def parse_trade_message (toCanonical : String → String) (raw_message : TradePayload) :
    List TradeMessage :=
  raw_message.data.map (fun trade_data =>
    { trade_id := trade_data.tradeId
      trading_pair := toCanonical trade_data.instId
      trade_type := if trade_data.side = "buy" then tradeTypeBuyTag else tradeTypeSellTag
      amount := trade_data.sz
      price := trade_data.px
      timestamp := (trade_data.ts : ℚ) * (1 / 1000) })

/-- Exact coefficient of Python Decimal(1e-6): the literal 1e-6 denotes the IEEE-754
double 4722366482869645 / 2 ^ 72, and conversion from float to Decimal is exact,
giving this coefficient with decimal exponent -72. -/
def decimal1e6Coeff : ℕ := 4722366482869645 * 5 ^ 72

/-- Decimal digit count of a natural number, with explicit fuel (zero digits for 0);
the fuel covers every value arising here. -/
def digitsLenAux : ℕ → ℕ → ℕ
  | 0, _ => 0
  | fuel + 1, n => if n = 0 then 0 else digitsLenAux fuel (n / 10) + 1

/-- Decimal digit count of a natural number. -/
def digitsLen (n : ℕ) : ℕ := digitsLenAux 240 n

/-- Rounding of a decimal coefficient-exponent pair to the default context of the
Python decimal module: 28 significant digits, ROUND_HALF_EVEN. -/
def decimalRound28 (c : ℕ) (e : ℤ) : ℕ × ℤ :=
  let d := digitsLen c
  if d ≤ 28 then (c, e)
  else
    let drop := d - 28
    let unit := 10 ^ drop
    let q := c / unit
    let r := c % unit
    let half := unit / 2
    let rounded := if half < r ∨ (r = half ∧ q % 2 = 1) then q + 1 else q
    (rounded, e + drop)

/-- Rational value of a decimal coefficient-exponent pair. -/
def decimalToRat (c : ℕ) (e : ℤ) : ℚ :=
  if 0 ≤ e then ((c * 10 ^ e.toNat : ℕ) : ℚ) else (c : ℚ) / ((10 ^ (-e).toNat : ℕ) : ℚ)

/-- Embedding of the rate computation of the funding parser:
Decimal(str(v)) * Decimal(1e-6) under the default decimal context. Decimal(str(v)) is
the exact integer v with exponent 0; multiplication multiplies coefficients, adds
exponents and rounds to the context precision; the sign is carried separately. -/
def fundingRateFromE6 (v : ℤ) : ℚ :=
  let p := decimalRound28 (v.natAbs * decimal1e6Coeff) (-72)
  let mag := decimalToRat p.1 p.2
  if v < 0 then -mag else mag

/-- One entry of the update array of a funding delta payload; each field may be absent.
Index and mark prices are numeric wire values (the code wraps them in
Decimal(str(...)), which is exact, so they are embedded by value); next_funding_time
is a timestamp string; predicted_funding_rate_e6 is an integer. -/
structure FundingEntry where
  index_price : Option ℚ
  mark_price : Option ℚ
  next_funding_time : Option String
  predicted_funding_rate_e6 : Option ℤ
  deriving DecidableEq

/-- A funding payload: the type field, the topic (whose last dot-segment is the
instrument identifier) and the nested update array at raw_message["data"]["update"]. -/
structure FundingPayload where
  type : String
  topic : String
  update : List FundingEntry
  deriving DecidableEq

/-- The FundingInfoUpdate record (hummingbot.core.data_type.funding_info): a sparse
update; every field other than the pair is optional and starts unset. -/
structure FundingInfoUpdate where
  trading_pair : String
  index_price : Option ℚ := none
  mark_price : Option ℚ := none
  next_funding_utc_timestamp : Option ℤ := none
  rate : Option ℚ := none
  deriving DecidableEq

/-- Embedding of parse_funding_info_message. Only payloads of type "delta" are
processed; one record per update entry, each record setting exactly the fields present
in its entry. pdTimestampUtc stands for the external pandas reader
int(pd.Timestamp(s, tz=UTC).timestamp()); the claims checked here do not depend on its
values. -/
def parse_funding_info_message (toCanonical : String → String)
    (pdTimestampUtc : String → ℤ) (raw_message : FundingPayload) :
    List FundingInfoUpdate :=
  if raw_message.type = "delta" then
    let symbol := String.mk ((pySplitChar ('.') raw_message.topic.data).getLastD [])
    let trading_pair := toCanonical symbol
    raw_message.update.map (fun entry =>
      { trading_pair := trading_pair
        index_price := entry.index_price
        mark_price := entry.mark_price
        next_funding_utc_timestamp := entry.next_funding_time.map pdTimestampUtc
        rate := entry.predicted_funding_rate_e6.map fundingRateFromE6 })
  else []

/-- One record of the data array of a REST depth snapshot; ts is the raw integer of
the ts field (milliseconds since epoch on the wire; the code reads it with float(...),
embedded here by its exact value). -/
structure SnapshotData where
  ts : ℤ
  bids : List (List ℚ)
  asks : List (List ℚ)
  deriving DecidableEq

/-- A REST depth snapshot response: its data array. -/
structure SnapshotResponse where
  data : List SnapshotData
  deriving DecidableEq

/-- Embedding of the static method get_bids_and_asks_from_rest_msg_data: keeps the
first two entries of every bid and ask row. -/
def get_bids_and_asks_from_rest_msg_data (snapshot : SnapshotData) :
    List (List ℚ) × List (List ℚ) :=
  (snapshot.bids.map (fun row => row.take 2), snapshot.asks.map (fun row => row.take 2))

/-- A SNAPSHOT message as built by order_book_snapshot. -/
structure SnapshotMessage where
  trading_pair : String
  update_id : ℕ
  bids : List (List ℚ)
  asks : List (List ℚ)
  timestamp : ℚ
  deriving DecidableEq

/-- Embedding of order_book_snapshot applied to the already-fetched REST response: the
code reads data[0], takes float(ts) as the event timestamp with no unit conversion,
draws an update id from the nonce provider at that timestamp, and builds one SNAPSHOT
message. -/
def order_book_snapshot (last : ℕ) (trading_pair : String)
    (snapshot_response : SnapshotResponse) : Except PyErr (SnapshotMessage × ℕ) :=
  match snapshot_response.data with
  | [] => Except.error PyErr.indexError
  | snapshot_data :: _ =>
    let timestamp : ℚ := (snapshot_data.ts : ℚ)
    let update_id := nonceNext last timestamp
    let ba := get_bids_and_asks_from_rest_msg_data snapshot_data
    Except.ok ({ trading_pair := trading_pair, update_id := update_id,
                 bids := ba.1, asks := ba.2, timestamp := timestamp }, update_id)

/-- One channel-instrument argument of a subscribe request. -/
structure SubscribeArg where
  channel : String
  instId : String
  deriving DecidableEq

/-- The payload of one WSJSONRequest built by the subscription code. -/
structure WSJSONRequestPayload where
  op : String
  args : List SubscribeArg
  deriving DecidableEq

/-- Embedding of subscribe_to_channels: builds the three subscribe payloads; the order
of the returned list is the sending order of the code (trades, then order book, then
instruments). The channel-name constants are parameters (okx_perpetual_constants is
not among the sources); toNative is the symbol translator of the connector. -/
def subscribe_to_channels (toNative : String → String)
    (tradesChannel orderBookChannel instrumentsChannel : String)
    (trading_pairs : List String) : List WSJSONRequestPayload :=
  let ex_trading_pairs := trading_pairs.map toNative
  let trades_args := ex_trading_pairs.map
    (fun p => { channel := tradesChannel, instId := p : SubscribeArg })
  let order_book_args := ex_trading_pairs.map
    (fun p => { channel := orderBookChannel, instId := p : SubscribeArg })
  let instruments_args := ex_trading_pairs.map
    (fun p => { channel := instrumentsChannel, instId := p : SubscribeArg })
  [{ op := "subscribe", args := trades_args },
   { op := "subscribe", args := order_book_args },
   { op := "subscribe", args := instruments_args }]

/-- One receive outcome while streaming: a regular payload, a receive timeout
(asyncio.TimeoutError raised by the underlying receive), or any other transport
failure. -/
inductive RecvEvent where
  | message
  | timeout
  | failure
  deriving DecidableEq

/-- Observable outcome of pumping a trace of receive events: the payloads sent on the
websocket, and whether the pumping loop was left (exited = false means the trace ended
with the loop still pumping on the same connection). -/
structure PumpResult where
  sent_payloads : List String
  exited : Bool
  deriving DecidableEq

/-- Embedding of the overridden process_websocket_messages loop composed with the
base-class pump. Modelled from the spec: the base pump (in
PerpetualAPIOrderBookDataSource, not among the sources) receives and processes one
message per trace event and raises asyncio.TimeoutError on a receive timeout. The
override catches exactly TimeoutError, answers it by sending one "ping" payload on the
same websocket assistant, and re-enters the pump; any other exception propagates and
leaves the loop. -/
def process_websocket_messages : List RecvEvent → PumpResult
  | [] => { sent_payloads := [], exited := false }
  | RecvEvent.message :: rest => process_websocket_messages rest
  | RecvEvent.timeout :: rest =>
    let r := process_websocket_messages rest
    { r with sent_payloads := "ping" :: r.sent_payloads }
  | RecvEvent.failure :: _ => { sent_payloads := [], exited := true }

/-- Example diff record used by the concrete witnesses below. -/
def diffDataEx : DiffData := { ts := 1000, bids := [[10, 1], [9, 2, 3]], asks := [[11, 2]] }

/-- A second example diff record (to show extra records are ignored). -/
def diffDataEx2 : DiffData := { ts := 2000, bids := [], asks := [] }

/-- Example depth payload with two data records. -/
def diffPayloadEx : DiffPayload :=
  { action := some ("update"), arg_instId := some ("BTC-USDT-SWAP"),
    data := [diffDataEx, diffDataEx2] }

/-- Example trade payload with one buy print and one sell print. -/
def tradePayloadEx : TradePayload :=
  { data := [{ instId := "BTCUSDT", tradeId := "t1", side := "buy",
               sz := 5, px := 100, ts := 1700000000123 },
             { instId := "BTCUSDT", tradeId := "t2", side := "sell",
               sz := 7, px := 99, ts := 1700000000456 }] }

/-- Example funding entry carrying only a mark price. -/
def fundingEntryMarkOnly : FundingEntry :=
  { index_price := none, mark_price := some 101, next_funding_time := none,
    predicted_funding_rate_e6 := none }

/-- Example funding delta payload with a single mark-price-only entry. -/
def fundingPayloadEx : FundingPayload :=
  { type := "delta", topic := "instrument_info.100ms.BTCUSDT",
    update := [fundingEntryMarkOnly] }

/-- Example funding delta payload whose single entry carries only the fixed-point
rate 1 (one millionth). -/
def fundingPayloadRateEx : FundingPayload :=
  { type := "delta", topic := "instrument_info.100ms.BTCUSDT",
    update := [{ index_price := none, mark_price := none, next_funding_time := none,
                 predicted_funding_rate_e6 := some 1 }] }

/-- Mapping a constant function over a list gives a replicate of its length. -/
theorem list_map_const_eq_replicate {α β : Type} (b : β) (l : List α) :
    l.map (fun _ => b) = List.replicate l.length b := by
  induction l with
  | nil => rfl
  | cons a t ih => simp [List.replicate_succ, ih]

/-- Claim C1: on a depth payload whose action equals "update" the diff parser enqueues
exactly one DIFF message, built from the first record of the data array only (the
result is unchanged when the trailing records are dropped); on a payload whose action
key is absent or holds any other value it enqueues nothing and leaves the queue and
the nonce state untouched. -/
theorem diff_parser_one_event_iff_update (toCanonical : String → String) (last : ℕ)
    (p : DiffPayload) :
    (p.action ≠ some ("update") →
      parse_order_book_diff_message toCanonical last p = Except.ok ([], last)) ∧
    (p.action = some ("update") → ∀ symbol d rest,
      p.arg_instId = some symbol → p.data = d :: rest →
      ∃ m n, parse_order_book_diff_message toCanonical last p = Except.ok ([m], n) ∧
        parse_order_book_diff_message toCanonical last
            { action := p.action, arg_instId := p.arg_instId, data := [d] }
          = Except.ok ([m], n)) := by
  obtain ⟨a, ai, dl⟩ := p
  constructor
  · intro h
    simp only [parse_order_book_diff_message, if_neg h]
  · intro h symbol d rest hs hd
    simp only at h hs hd
    subst h hs hd
    exact ⟨_, _, rfl, rfl⟩

/-- Witness for C1: a non-update payload enqueues nothing; an update payload with two
data records enqueues one message equal to the one obtained from the first record
alone. -/
theorem diff_parser_one_event_iff_update_witness :
    (parse_order_book_diff_message (fun s => s) 0
        { action := some ("snapshot"), arg_instId := some ("BTC-USDT-SWAP"), data := [] }
      = Except.ok ([], 0)) ∧
    (∃ m n,
      parse_order_book_diff_message (fun s => s) 0 diffPayloadEx = Except.ok ([m], n) ∧
      parse_order_book_diff_message (fun s => s) 0
          { action := diffPayloadEx.action, arg_instId := diffPayloadEx.arg_instId,
            data := [diffDataEx] }
        = Except.ok ([m], n)) :=
  ⟨(diff_parser_one_event_iff_update (fun s => s) 0 _).1 (by decide),
   (diff_parser_one_event_iff_update (fun s => s) 0 diffPayloadEx).2 rfl
     ("BTC-USDT-SWAP") diffDataEx [diffDataEx2] rfl rfl⟩

/-- Claim C2 is refuted by the code: on an update payload whose first record has
ts = 1000 (milliseconds on the wire), the parser scales ts by the float literal 1e-6,
so the emitted event timestamp is 1/1000 second instead of the 1 second the claim
requires, and the update id drawn from the microsecond nonce provider is 1000 (the
microsecond count it derives), not the 1000000 microseconds of a millisecond
timestamp. -/
theorem diff_parser_timestamp_scaling_bug :
    parse_order_book_diff_message (fun s => s) 0
        { action := some ("update"), arg_instId := some ("BTC-USDT-SWAP"),
          data := [{ ts := 1000, bids := [], asks := [] }] }
      = Except.ok ([{ trading_pair := "BTC-USDT-SWAP", update_id := 1000,
                      bids := [], asks := [], timestamp := 1 / 1000 }], 1000) ∧
    (1 / 1000 : ℚ) ≠ 1 ∧ (1000 : ℕ) ≠ 1000000 := by
  refine ⟨?_, by norm_num, by norm_num⟩
  have hf : ((1000 : ℤ) : ℚ) * (1 / 1000000) * 1000000 = ((1000 : ℤ) : ℚ) := by
    norm_num
  have ht : ((1000 : ℤ) : ℚ) * (1 / 1000000) = 1 / 1000 := by
    norm_num
  have hN : (1000 : ℤ).toNat = 1000 := rfl
  simp only [parse_order_book_diff_message, nonceNext, get_bids_and_asks_from_ws_msg_data,
    hf, ht, Int.floor_intCast, if_pos rfl]
  norm_num [hN]

/-- Claim C3 is refuted by the code: on the snapshot response of the claim (ts string
"1000", one bid row, one ask row) the snapshot builder keeps float(ts) = 1000 as the
event timestamp without any millisecond-to-second conversion, so the event carries
timestamp 1000 rather than the claimed 1.0; pair, bids, asks and a positive update id
do come out as claimed. -/
theorem snapshot_timestamp_unscaled_bug :
    order_book_snapshot 0 ("X")
        { data := [{ ts := 1000, bids := [[10, 1]], asks := [[11, 2]] }] }
      = Except.ok ({ trading_pair := "X", update_id := 1000000000,
                     bids := [[10, 1]], asks := [[11, 2]], timestamp := 1000 },
                   1000000000) ∧
    (0 : ℕ) < 1000000000 ∧ (1000 : ℚ) ≠ 1 := by
  refine ⟨?_, by norm_num, by norm_num⟩
  have hf : ((1000 : ℤ) : ℚ) * 1000000 = ((1000000000 : ℤ) : ℚ) := by norm_num
  have hN : (1000000000 : ℤ).toNat = 1000000000 := rfl
  simp only [order_book_snapshot, nonceNext, get_bids_and_asks_from_rest_msg_data,
    hf, Int.floor_intCast]
  norm_num [hN]

/-- Claim C4 is refuted by the code: the funding parser computes the rate as
Decimal(str(v)) * Decimal(1e-6), and Decimal(1e-6) is the exact binary value of the
double 1e-6, not one millionth. For the entry with predicted_funding_rate_e6 = 1 the
resulting rate is 9999999999999999547481118259 / 10 ^ 34 (the 28-digit rounding of
that binary value), which is not 1 / 1000000. -/
theorem funding_rate_e6_inexact_bug :
    (parse_funding_info_message (fun s => s) (fun _ => 0) fundingPayloadRateEx).map
        FundingInfoUpdate.rate
      = [some ((9999999999999999547481118259 : ℚ) / 10 ^ 34)] ∧
    ((9999999999999999547481118259 : ℚ) / 10 ^ 34) ≠ 1 / 1000000 := by
  constructor
  · have hc : decimalRound28 ((1 : ℤ).natAbs * decimal1e6Coeff) (-72)
        = (9999999999999999547481118259, -34) := by decide
    have hr : fundingRateFromE6 1 = (9999999999999999547481118259 : ℚ) / 10 ^ 34 := by
      have h34 : (34 : ℤ).toNat = 34 := rfl
      unfold fundingRateFromE6
      simp only [hc, decimalToRat]
      norm_num [h34]
    simp [parse_funding_info_message, fundingPayloadRateEx, hr]
  · norm_num

/-- Claim C5: the classifier returns the unrouted outcome for every payload carrying a
top-level success key; otherwise it reads the topic, strips the trailing dot-segment,
and routes to the trade, diff or funding queue exactly when the remaining channel name
equals the respective channel-name constant, returning the unrouted outcome for every
other channel name (the three constants being pairwise distinct). -/
theorem classifier_routing (tradesChannel orderBookChannel instrumentsChannel : String)
    (p : WsEventMessage)
    (hto : tradesChannel ≠ orderBookChannel)
    (hti : tradesChannel ≠ instrumentsChannel)
    (hoi : orderBookChannel ≠ instrumentsChannel) :
    (p.success = true →
      channel_originating_message tradesChannel orderBookChannel instrumentsChannel p
        = Except.ok none) ∧
    (p.success = false → ∀ t, p.topic = some t →
      ((channel_originating_message tradesChannel orderBookChannel instrumentsChannel p
          = Except.ok (some ChannelKind.trade) ↔ stripLastSegment t = tradesChannel) ∧
       (channel_originating_message tradesChannel orderBookChannel instrumentsChannel p
          = Except.ok (some ChannelKind.diff) ↔ stripLastSegment t = orderBookChannel) ∧
       (channel_originating_message tradesChannel orderBookChannel instrumentsChannel p
          = Except.ok (some ChannelKind.funding) ↔ stripLastSegment t = instrumentsChannel) ∧
       (channel_originating_message tradesChannel orderBookChannel instrumentsChannel p
          = Except.ok none ↔
          (stripLastSegment t ≠ tradesChannel ∧ stripLastSegment t ≠ orderBookChannel ∧
           stripLastSegment t ≠ instrumentsChannel)))) := by
  obtain ⟨s, tp⟩ := p
  constructor
  · intro hs
    simp only at hs
    subst hs
    rfl
  · intro hs t ht
    simp only at hs ht
    subst hs ht
    simp only [channel_originating_message]
    split_ifs with h1 h2 h3 <;> simp_all

/-- Witness for C5: with pairwise distinct channel names, a topic whose channel part
matches the trades constant routes to the trade queue, and the same payload with a
success key present is unrouted. -/
theorem classifier_routing_witness :
    channel_originating_message ("trade") ("orderBook200") ("instrument_info")
        { success := false, topic := some ("trade.BTCUSDT") }
      = Except.ok (some ChannelKind.trade) ∧
    channel_originating_message ("trade") ("orderBook200") ("instrument_info")
        { success := true, topic := some ("trade.BTCUSDT") }
      = Except.ok none :=
  ⟨((classifier_routing ("trade") ("orderBook200") ("instrument_info")
        { success := false, topic := some ("trade.BTCUSDT") }
        (by decide) (by decide) (by decide)).2 rfl ("trade.BTCUSDT") rfl).1.mpr (by decide),
   (classifier_routing ("trade") ("orderBook200") ("instrument_info")
        { success := true, topic := some ("trade.BTCUSDT") }
        (by decide) (by decide) (by decide)).1 rfl⟩

/-- Claim C6: the trade parser enqueues exactly one TRADE event per entry of the data
array, in array order (the event at index i carries the trade id and translated pair
of the entry at index i), with the millisecond timestamp scaled to seconds and side
"buy" mapped to the buy tag and side "sell" to the sell tag. -/
theorem trade_parser_k_events (toCanonical : String → String) (raw : TradePayload) :
    (parse_trade_message toCanonical raw).length = raw.data.length ∧
    (∀ i (h1 : i < raw.data.length)
        (h2 : i < (parse_trade_message toCanonical raw).length),
      ((parse_trade_message toCanonical raw).get ⟨i, h2⟩).trade_id
          = (raw.data.get ⟨i, h1⟩).tradeId ∧
      ((parse_trade_message toCanonical raw).get ⟨i, h2⟩).trading_pair
          = toCanonical (raw.data.get ⟨i, h1⟩).instId ∧
      ((parse_trade_message toCanonical raw).get ⟨i, h2⟩).timestamp
          = ((raw.data.get ⟨i, h1⟩).ts : ℚ) * (1 / 1000) ∧
      ((raw.data.get ⟨i, h1⟩).side = "buy" →
        ((parse_trade_message toCanonical raw).get ⟨i, h2⟩).trade_type = tradeTypeBuyTag) ∧
      ((raw.data.get ⟨i, h1⟩).side = "sell" →
        ((parse_trade_message toCanonical raw).get ⟨i, h2⟩).trade_type = tradeTypeSellTag)) := by
  constructor
  · simp [parse_trade_message]
  · intro i h1 h2
    refine ⟨?_, ?_, ?_, ?_, ?_⟩ <;>
      simp only [parse_trade_message, List.get_eq_getElem, List.getElem_map]
    · intro hbuy
      simp [hbuy]
    · intro hsell
      simp [hsell]

/-- Witness for C6: the two-print example payload yields two events; the first (a buy)
carries the buy tag, the second (a sell) the sell tag. -/
theorem trade_parser_k_events_witness :
    (parse_trade_message (fun s => s) tradePayloadEx).length = tradePayloadEx.data.length ∧
    ((parse_trade_message (fun s => s) tradePayloadEx).get ⟨0, by decide⟩).trade_type
      = tradeTypeBuyTag ∧
    ((parse_trade_message (fun s => s) tradePayloadEx).get ⟨1, by decide⟩).trade_type
      = tradeTypeSellTag :=
  ⟨(trade_parser_k_events (fun s => s) tradePayloadEx).1,
   ((trade_parser_k_events (fun s => s) tradePayloadEx).2 0 (by decide) (by decide)).2.2.2.1 rfl,
   ((trade_parser_k_events (fun s => s) tradePayloadEx).2 1 (by decide) (by decide)).2.2.2.2 rfl⟩

/-- Claim C7: on a funding payload of type "delta" the funding parser produces exactly
one update record per entry of the nested update array, in order, and in each record a
field is set exactly when the corresponding field is present in the entry (so an entry
carrying only mark_price yields a record with only mark_price set). -/
theorem funding_parser_sparse_per_entry (toCanonical : String → String)
    (pdTimestampUtc : String → ℤ) (raw : FundingPayload) (hdelta : raw.type = "delta") :
    (parse_funding_info_message toCanonical pdTimestampUtc raw).length
      = raw.update.length ∧
    (∀ i (h1 : i < raw.update.length)
        (h2 : i < (parse_funding_info_message toCanonical pdTimestampUtc raw).length),
      (((parse_funding_info_message toCanonical pdTimestampUtc raw).get ⟨i, h2⟩).index_price.isSome
          ↔ (raw.update.get ⟨i, h1⟩).index_price.isSome) ∧
      (((parse_funding_info_message toCanonical pdTimestampUtc raw).get ⟨i, h2⟩).mark_price.isSome
          ↔ (raw.update.get ⟨i, h1⟩).mark_price.isSome) ∧
      (((parse_funding_info_message toCanonical pdTimestampUtc raw).get ⟨i, h2⟩).next_funding_utc_timestamp.isSome
          ↔ (raw.update.get ⟨i, h1⟩).next_funding_time.isSome) ∧
      (((parse_funding_info_message toCanonical pdTimestampUtc raw).get ⟨i, h2⟩).rate.isSome
          ↔ (raw.update.get ⟨i, h1⟩).predicted_funding_rate_e6.isSome)) := by
  constructor
  · simp [parse_funding_info_message, hdelta]
  · intro i h1 h2
    simp only [parse_funding_info_message, hdelta, if_pos, List.get_eq_getElem,
      List.getElem_map, Option.isSome_map]
    simp

/-- Witness for C7: the mark-price-only example entry yields exactly one record whose
four optional fields are set exactly as in the entry. -/
theorem funding_parser_sparse_per_entry_witness :
    (parse_funding_info_message (fun s => s) (fun _ => 0) fundingPayloadEx).length
      = fundingPayloadEx.update.length ∧
    (((parse_funding_info_message (fun s => s) (fun _ => 0) fundingPayloadEx).get
        ⟨0, by decide⟩).mark_price.isSome
      ↔ (fundingPayloadEx.update.get ⟨0, by decide⟩).mark_price.isSome) ∧
    (((parse_funding_info_message (fun s => s) (fun _ => 0) fundingPayloadEx).get
        ⟨0, by decide⟩).index_price.isSome
      ↔ (fundingPayloadEx.update.get ⟨0, by decide⟩).index_price.isSome) :=
  ⟨(funding_parser_sparse_per_entry (fun s => s) (fun _ => 0) fundingPayloadEx rfl).1,
   ((funding_parser_sparse_per_entry (fun s => s) (fun _ => 0) fundingPayloadEx rfl).2 0
      (by decide) (by decide)).2.1,
   ((funding_parser_sparse_per_entry (fun s => s) (fun _ => 0) fundingPayloadEx rfl).2 0
      (by decide) (by decide)).1⟩

/-- Claim C8: for every instrument list the subscription code builds exactly three
subscribe requests, each with one channel-instrument argument per instrument in the
supplied order, and the requests go out in the order trades, order book,
instruments. -/
theorem subscribe_batch_shape (toNative : String → String)
    (tradesChannel orderBookChannel instrumentsChannel : String)
    (trading_pairs : List String) :
    (subscribe_to_channels toNative tradesChannel orderBookChannel instrumentsChannel
        trading_pairs).length = 3 ∧
    (∀ r ∈ subscribe_to_channels toNative tradesChannel orderBookChannel
        instrumentsChannel trading_pairs,
      r.op = "subscribe" ∧ r.args.length = trading_pairs.length ∧
      r.args.map SubscribeArg.instId = trading_pairs.map toNative) ∧
    (subscribe_to_channels toNative tradesChannel orderBookChannel instrumentsChannel
        trading_pairs).map (fun r => r.args.map SubscribeArg.channel)
      = [List.replicate trading_pairs.length tradesChannel,
         List.replicate trading_pairs.length orderBookChannel,
         List.replicate trading_pairs.length instrumentsChannel] := by
  refine ⟨rfl, ?_, ?_⟩
  · intro r hr
    simp only [subscribe_to_channels, List.mem_cons, List.not_mem_nil, or_false] at hr
    rcases hr with rfl | rfl | rfl <;>
      exact ⟨rfl, by simp, by simp [List.map_map, Function.comp]⟩
  · simp [subscribe_to_channels, List.map_map, Function.comp_def,
      list_map_const_eq_replicate]

/-- Witness for C8: with instruments A and B, the trades request (a member of the
batch) has two arguments whose instrument ids are A and B in order. -/
theorem subscribe_batch_shape_witness :
    ({ op := "subscribe",
       args := [{ channel := "t", instId := "A" }, { channel := "t", instId := "B" }] }
        : WSJSONRequestPayload).op = "subscribe" ∧
    ({ op := "subscribe",
       args := [{ channel := "t", instId := "A" }, { channel := "t", instId := "B" }] }
        : WSJSONRequestPayload).args.length = (["A", "B"] : List String).length ∧
    ({ op := "subscribe",
       args := [{ channel := "t", instId := "A" }, { channel := "t", instId := "B" }] }
        : WSJSONRequestPayload).args.map SubscribeArg.instId
      = (["A", "B"] : List String).map (fun s => s) :=
  (subscribe_batch_shape (fun s => s) ("t") ("o") ("i") (["A", "B"])).2.1 _ (by decide)

/-- Claim C9: while streaming, a receive timeout makes the loop send exactly one
"ping" payload and keep pumping on the same connection (timeouts alone never end the
loop); the loop is left exactly when a non-timeout transport failure occurs; and over
any trace the pings sent are one per timeout received before the first failure. -/
theorem ws_pump_timeout_probe (trace : List RecvEvent) :
    (process_websocket_messages (RecvEvent.timeout :: trace)).sent_payloads
        = "ping" :: (process_websocket_messages trace).sent_payloads ∧
    (process_websocket_messages (RecvEvent.timeout :: trace)).exited
        = (process_websocket_messages trace).exited ∧
    ((process_websocket_messages trace).exited = true ↔ RecvEvent.failure ∈ trace) ∧
    (process_websocket_messages trace).sent_payloads
      = List.replicate
          ((trace.takeWhile (fun e => e != RecvEvent.failure)).count RecvEvent.timeout)
          ("ping") := by
  refine ⟨rfl, rfl, ?_, ?_⟩
  · induction trace with
    | nil => simp [process_websocket_messages]
    | cons e rest ih =>
      cases e <;> simp [process_websocket_messages, ih]
  · induction trace with
    | nil => simp [process_websocket_messages]
    | cons e rest ih =>
      cases e <;>
        simp [process_websocket_messages, ih, List.takeWhile_cons, List.count_cons,
          List.replicate_succ]

/-- Claim C10: the classifier is total exactly on payloads carrying a success key or a
topic key: lacking both, it raises KeyError instead of returning the unrouted outcome;
carrying either, it returns some routing outcome. -/
theorem classifier_keyerror_without_topic
    (tradesChannel orderBookChannel instrumentsChannel : String) (p : WsEventMessage) :
    (p.success = false → p.topic = none →
      channel_originating_message tradesChannel orderBookChannel instrumentsChannel p
        = Except.error PyErr.keyError) ∧
    ((p.success = true ∨ p.topic ≠ none) →
      ∃ r, channel_originating_message tradesChannel orderBookChannel instrumentsChannel p
        = Except.ok r) := by
  obtain ⟨s, tp⟩ := p
  constructor
  · intro hs ht
    simp only at hs ht
    subst hs ht
    rfl
  · intro h
    rcases h with hs | ht
    · simp only at hs
      subst hs
      exact ⟨none, rfl⟩
    · simp only at ht
      cases tp with
      | none => exact absurd rfl ht
      | some t =>
        cases s with
        | true => exact ⟨none, rfl⟩
        | false =>
          simp only [channel_originating_message]
          split_ifs <;> exact ⟨_, rfl⟩

/-- Witness for C10: a payload with neither key raises KeyError; a payload with a
success key classifies without error. -/
theorem classifier_keyerror_without_topic_witness :
    channel_originating_message ("t") ("o") ("i") { success := false, topic := none }
      = Except.error PyErr.keyError ∧
    ∃ r, channel_originating_message ("t") ("o") ("i") { success := true, topic := none }
      = Except.ok r :=
  ⟨(classifier_keyerror_without_topic ("t") ("o") ("i")
      { success := false, topic := none }).1 rfl rfl,
   (classifier_keyerror_without_topic ("t") ("o") ("i")
      { success := true, topic := none }).2 (Or.inl rfl)⟩

end OkxPerp
